import Mathlib

/- Shallow embedding of the Arina recommendation engine (the
   recommendation module of the Arina-SharedPackage repository) together
   with proofs about it.  JavaScript numbers are modelled exactly by the
   rational numbers; the wall clock (Date.now and new Date()) is modelled
   by an explicit parameter now : Int, in milliseconds, threaded through
   the pipeline; record timestamps are Option Int, none standing for a
   missing (falsy) created_at value, which the source values at the
   epoch 0.  JavaScript truthiness tests on numeric fields are embedded
   as the test that the field is present and nonzero. -/

attribute [local semireducible] Rat.add Rat.mul Rat.sub Rat.inv Rat.ofScientific

namespace Arina

/-- One entry of the operationalCosts array of a business-feasibility
payload. -/
structure OperationalCost where
  name : String := ""
  amount : ℚ := 0
  deriving DecidableEq

/-- One point of the forecasted series of a demand-forecast payload. -/
structure ForecastPoint where
  forecast : ℚ := 0
  deriving DecidableEq

/-- One point of the chart.historical series of a demand-forecast payload. -/
structure HistoricalPoint where
  value : ℚ := 0
  deriving DecidableEq

/-- The chart object of a demand-forecast payload. -/
structure ChartData where
  historical : Option (List HistoricalPoint) := none
  deriving DecidableEq

/-- The accuracy object of a demand-forecast payload. -/
structure AccuracyData where
  mape : Option ℚ := none
  deriving DecidableEq

/-- One decision variable of an optimization payload. -/
structure VariableData where
  name : String := ""
  value : ℚ := 0
  deriving DecidableEq

/-- One constraint of an optimization payload. -/
structure ConstraintData where
  name : String := ""
  slack : ℚ := 0
  deriving DecidableEq

/-- The jsonb data payload of a stored analysis result, restricted to the
fields the engine probes.  Every field is optional (the source reads them
defensively off an any-typed blob); absent fields are none.  The fields
carry the types the engine expects of well-shaped payloads; what the
source does on wrong-shaped (non-number) values is traced separately with
JsonVal below. -/
structure AnalysisData where
  businessName : String := ""
  productName : String := ""
  name : String := ""
  profitMargin : Option ℚ := none
  roi : Option ℚ := none
  paybackPeriod : Option ℚ := none
  operationalCosts : Option (List OperationalCost) := none
  breakEvenUnits : Option ℚ := none
  monthlySalesVolume : Option ℚ := none
  forecasted : Option (List ForecastPoint) := none
  chart : Option ChartData := none
  accuracy : Option AccuracyData := none
  feasible : Option Bool := none
  objectiveValue : Option ℚ := none
  «variables» : Option (List VariableData) := none
  constraints : Option (List ConstraintData) := none
  deriving DecidableEq

/-- Embedding of the AnalysisResult entity of src/schema.ts (the
analysisResults table and its inferred select type): a uuid id, the
owning user id, the type tag text, the jsonb data payload, and the
created_at and updated_at timestamp columns.  The timestamp columns are
nullable (no notNull) and are modelled as optional millisecond values;
the engine guards created_at with a falsy test.  The jsonb payload is
modelled by the typed AnalysisData restriction above; its wrong-shape
error behaviour is examined separately below with JsonVal. -/
structure AnalysisResult where
  id : String := ""
  user_id : String := ""
  type : String := ""
  data : AnalysisData := {}
  created_at : Option Int := none
  updated_at : Option Int := none
  deriving DecidableEq

/-- Embedding of the ChatMessage entity of src/schema.ts (the
chatMessages table and its inferred select type): a uuid id, the owning
conversation id, the role text, the content text, and the nullable
created_at timestamp column, modelled as an optional millisecond
value. -/
structure ChatMessage where
  id : String := ""
  conversation_id : String := ""
  role : String := ""
  content : String := ""
  created_at : Option Int := none
  deriving DecidableEq

/-- The four recommendation item types of the source union. -/
inductive RecType where
  | crop
  | business
  | resource
  | market
  deriving DecidableEq

/-- The four provenance sources of the source union. -/
inductive RecSource where
  | analysis
  | chat
  | pattern
  | seasonal
  deriving DecidableEq

/-- Embedding of the RecommendationItem interface.  The supporting data
payload field of the source (item.data) is not referenced by any claim and
is not modelled; createdAt is the millisecond clock value. -/
structure RecommendationItem where
  id : String
  type : RecType
  title : String
  description : String
  confidence : ℚ
  source : RecSource
  createdAt : Int
  deriving DecidableEq

/-- Embedding of the RecommendationSet interface. -/
structure RecommendationSet where
  id : String
  userId : String
  recommendations : List RecommendationItem
  summary : String
  createdAt : Int
  deriving DecidableEq

/-- The four season tags of the source union. -/
inductive Season where
  | spring
  | summer
  | fall
  | winter
  deriving DecidableEq

/-- The lowercase name of a season tag, as the source string literal. -/
def seasonName : Season → String
  | .spring => "spring"
  | .summer => "summer"
  | .fall => "fall"
  | .winter => "winter"

/-- Embedding of the RecommendationInput interface. -/
structure RecommendationInput where
  userId : String := ""
  analysisResults : List AnalysisResult := []
  chatHistory : List ChatMessage := []
  currentSeason : Option Season := none

/-- Timestamp key used by the recency sorter: a present created_at is its
millisecond value, a missing one is valued at the epoch 0 (source:
new Date(a.created_at).getTime() behind the falsy guard). -/
def recencyKey (r : AnalysisResult) : Int :=
  match r.created_at with
  | some t => t
  | none => 0

/-- Recency order on analysis results: a may come before b exactly when the
key of b is at most the key of a.  This is the total preorder sorted by the
source comparator (a, b) => dateB - dateA. -/
def recencyGE (a b : AnalysisResult) : Prop :=
  recencyKey b ≤ recencyKey a

instance : DecidableRel recencyGE :=
  fun a b => Int.decLe (recencyKey b) (recencyKey a)

instance : IsTotal AnalysisResult recencyGE :=
  ⟨fun a b => Int.le_total (recencyKey b) (recencyKey a)⟩

instance : IsTrans AnalysisResult recencyGE :=
  ⟨fun _ _ _ h1 h2 => le_trans h2 h1⟩

/-- Embedding of sortByRecency: a stable sort of a copy of the input list,
newest first.  JavaScript array sort with a consistent comparator is a
stable sort, modelled by insertion sort on the matching total preorder. -/
def sortByRecency (results : List AnalysisResult) : List AnalysisResult :=
  List.insertionSort recencyGE results

/-- Decimal model of Number.toFixed(1) as used inside template strings: the
value is rounded to the nearest tenth (half up) and printed with exactly one
decimal digit. -/
def toFixed1 (q : ℚ) : String :=
  let n : Int := round (q * 10)
  let sign := if n < 0 then "-" else ""
  sign ++ toString (n.natAbs / 10) ++ "." ++ toString (n.natAbs % 10)

/-- Decimal model of Number.toFixed(2): the value is rounded to the nearest
hundredth (half up) and printed with exactly two decimal digits. -/
def toFixed2 (q : ℚ) : String :=
  let n : Int := round (q * 100)
  let sign := if n < 0 then "-" else ""
  sign ++ toString (n.natAbs / 100) ++ "." ++
    (if n.natAbs % 100 < 10 then "0" else "") ++ toString (n.natAbs % 100)

/-- The Profitable Business Model item of the business extractor. -/
def bizProfitItem (now : Int) (r : AnalysisResult) (pm : ℚ) : RecommendationItem :=
  { id := "biz-profit-" ++ r.id
    type := .business
    title := "Profitable Business Model"
    description := "Your " ++ r.data.businessName ++ " shows a strong profit margin of " ++
      toFixed1 (pm * 100) ++ "%. Consider scaling operations while maintaining current cost structure."
    confidence := 0.8
    source := .analysis
    createdAt := now }

/-- The Strong Return on Investment item of the business extractor. -/
def bizRoiItem (now : Int) (r : AnalysisResult) (roi : ℚ) : RecommendationItem :=
  { id := "biz-roi-" ++ r.id
    type := .business
    title := "Strong Return on Investment"
    description := "Your investment in " ++ r.data.businessName ++ " shows a " ++
      toFixed1 (roi * 100) ++ "% ROI. Consider additional investment in similar ventures."
    confidence := 0.75
    source := .analysis
    createdAt := now }

/-- The Cost Reduction Opportunity item of the business extractor. -/
def bizCostItem (now : Int) (r : AnalysisResult) (highest : OperationalCost)
    (costPercentage : ℚ) : RecommendationItem :=
  { id := "biz-cost-" ++ r.id
    type := .resource
    title := "Cost Reduction Opportunity"
    description := highest.name ++ " represents " ++ toFixed1 (costPercentage * 100) ++
      "% of your operational costs. Reducing this could significantly improve profitability."
    confidence := 0.7
    source := .analysis
    createdAt := now }

/-- The Favorable Break-Even Point item of the business extractor. -/
def bizBreakevenItem (now : Int) (r : AnalysisResult) (ratio : ℚ) : RecommendationItem :=
  { id := "biz-breakeven-" ++ r.id
    type := .business
    title := "Favorable Break-Even Point"
    description := "You reach break-even at just " ++ toFixed1 (ratio * 100) ++
      "% of your monthly sales volume. This gives you a safety margin in market fluctuations."
    confidence := 0.85
    source := .analysis
    createdAt := now }

/-- Descending order on operational costs used by the source comparator
(a, b) => b.amount - a.amount. -/
def costGE (a b : OperationalCost) : Prop :=
  b.amount ≤ a.amount

instance : DecidableRel costGE :=
  fun a b => inferInstanceAs (Decidable (b.amount ≤ a.amount))

/-- The profit-margin rule of the business extractor.  A JavaScript
truthiness guard on a numeric field is the test that the field is present
and nonzero. -/
def bizProfitPart (now : Int) (r : AnalysisResult) : List RecommendationItem :=
  match r.data.profitMargin with
  | some pm => if pm ≠ 0 ∧ pm > 0.25 then [bizProfitItem now r pm] else []
  | none => []

/-- The ROI rule of the business extractor. -/
def bizRoiPart (now : Int) (r : AnalysisResult) : List RecommendationItem :=
  match r.data.roi with
  | some roi => if roi ≠ 0 ∧ roi > 0.15 then [bizRoiItem now r roi] else []
  | none => []

/-- The cost-structure rule of the business extractor: the largest
operational cost is compared against thirty percent of the total. -/
def bizCostPart (now : Int) (r : AnalysisResult) : List RecommendationItem :=
  match r.data.operationalCosts with
  | some costs =>
    match List.insertionSort costGE costs with
    | [] => []
    | highest :: rest =>
      let costPercentage := highest.amount / ((highest :: rest).map (·.amount)).sum
      if costPercentage > 0.3 then [bizCostItem now r highest costPercentage] else []
  | none => []

/-- The break-even rule of the business extractor. -/
def bizBreakevenPart (now : Int) (r : AnalysisResult) : List RecommendationItem :=
  match r.data.breakEvenUnits, r.data.monthlySalesVolume with
  | some b, some m =>
    if b ≠ 0 ∧ m ≠ 0 then
      let breakEvenRatio := b / m
      if breakEvenRatio < 0.5 then [bizBreakevenItem now r breakEvenRatio] else []
    else []
  | _, _ => []

/-- The items the business extractor pushes for one scanned analysis, in
source order: profit-margin rule, ROI rule, cost-structure rule, and the
break-even rule. -/
def bizItemsFor (now : Int) (r : AnalysisResult) : List RecommendationItem :=
  bizProfitPart now r ++ bizRoiPart now r ++ bizCostPart now r ++ bizBreakevenPart now r

/-- The analyses the business extractor scans: those of type
business_feasibility, recency sorted and capped to the three most recent. -/
def bizScanned (results : List AnalysisResult) : List AnalysisResult :=
  (sortByRecency (results.filter (fun r => r.type == "business_feasibility"))).take 3

/-- Embedding of extractBusinessRecommendations. -/
def extractBusinessRecommendations (now : Int) (results : List AnalysisResult) :
    List RecommendationItem :=
  (bizScanned results).flatMap (bizItemsFor now)

/-- The Growing Demand Trend item of the forecast extractor. -/
def forecastGrowthItem (now : Int) (r : AnalysisResult) (growthRate : ℚ) : RecommendationItem :=
  { id := "forecast-growth-" ++ r.id
    type := .market
    title := "Growing Demand Trend"
    description := "Demand for " ++ r.data.productName ++ " is projected to grow by " ++
      toFixed1 (growthRate * 100) ++ "% over the forecast period. Consider increasing production capacity."
    confidence := 0.75
    source := .analysis
    createdAt := now }

/-- The Declining Demand Alert item of the forecast extractor, phrased with
the absolute decline rate. -/
def forecastDeclineItem (now : Int) (r : AnalysisResult) (growthRate : ℚ) : RecommendationItem :=
  { id := "forecast-decline-" ++ r.id
    type := .market
    title := "Declining Demand Alert"
    description := "Demand for " ++ r.data.productName ++ " is projected to decline by " ++
      toFixed1 (|growthRate| * 100) ++ "% over the forecast period. Consider diversifying your product mix."
    confidence := 0.75
    source := .analysis
    createdAt := now }

/-- The growth-trend rule of the forecast extractor for one analysis: with
at least two forecast points, the relative growth from the first to the
last point is compared against the ten percent thresholds. -/
def forecastTrendItems (now : Int) (r : AnalysisResult) : List RecommendationItem :=
  match r.data.forecasted with
  | some (p0 :: p1 :: rest) =>
    let firstForecast := p0.forecast
    let lastForecast := ((p1 :: rest).getLastD p1).forecast
    let growthRate := (lastForecast - firstForecast) / firstForecast
    if growthRate > 0.1 then [forecastGrowthItem now r growthRate]
    else if growthRate < -0.1 then [forecastDeclineItem now r growthRate]
    else []
  | _ => []

/-- The Seasonal Demand Pattern item of the forecast extractor. -/
def forecastPatternItem (now : Int) (r : AnalysisResult) (peaks : Nat) : RecommendationItem :=
  { id := "forecast-seasonal-" ++ r.id
    type := .market
    title := "Seasonal Demand Pattern"
    description := r.data.productName ++ " shows seasonal demand patterns with " ++
      toString peaks ++ " peak periods. Plan inventory and production to align with these patterns."
    confidence := 0.7
    source := .pattern
    createdAt := now }

/-- The seasonality rule of the forecast extractor for one analysis: points
of the historical series above 1.2 times its mean are peaks, and two or
more peaks emit the pattern item. -/
def forecastSeasonalItems (now : Int) (r : AnalysisResult) : List RecommendationItem :=
  match r.data.chart with
  | some chart =>
    match chart.historical with
    | some hist =>
      let values := hist.map (·.value)
      let avg := values.sum / (values.length : ℚ)
      let peaks := (values.filter (fun v => decide (v > avg * 1.2))).length
      if peaks ≥ 2 then [forecastPatternItem now r peaks] else []
    | none => []
  | none => []

/-- The High Forecast Reliability item of the forecast extractor. -/
def forecastReliableItem (now : Int) (r : AnalysisResult) (mape : ℚ) : RecommendationItem :=
  { id := "forecast-accuracy-" ++ r.id
    type := .business
    title := "High Forecast Reliability"
    description := "Your " ++ r.data.productName ++ " forecast has a high accuracy (MAPE: " ++
      toFixed1 mape ++ "%). Use this forecast with confidence for planning."
    confidence := 0.8
    source := .analysis
    createdAt := now }

/-- The Forecast Uncertainty Alert item of the forecast extractor. -/
def forecastUncertainItem (now : Int) (r : AnalysisResult) (mape : ℚ) : RecommendationItem :=
  { id := "forecast-inaccuracy-" ++ r.id
    type := .business
    title := "Forecast Uncertainty Alert"
    description := "Your " ++ r.data.productName ++ " forecast has a higher error rate (MAPE: " ++
      toFixed1 mape ++ "%). Consider using more historical data or adjusting your forecast method."
    confidence := 0.7
    source := .analysis
    createdAt := now }

/-- The forecast-accuracy rule of the forecast extractor for one analysis.
Both branches carry the truthiness guard of the source on mape. -/
def forecastAccuracyItems (now : Int) (r : AnalysisResult) : List RecommendationItem :=
  match r.data.accuracy with
  | some acc =>
    match acc.mape with
    | some mape =>
      if mape ≠ 0 ∧ mape < 10 then [forecastReliableItem now r mape]
      else if mape ≠ 0 ∧ mape > 20 then [forecastUncertainItem now r mape]
      else []
    | none => []
  | none => []

/-- The items the forecast extractor pushes for one scanned analysis, in
source order: trend rule, seasonality rule, accuracy rule. -/
def forecastItemsFor (now : Int) (r : AnalysisResult) : List RecommendationItem :=
  forecastTrendItems now r ++ forecastSeasonalItems now r ++ forecastAccuracyItems now r

/-- The analyses the forecast extractor scans: those of type
demand_forecast, recency sorted and capped to the three most recent. -/
def forecastScanned (results : List AnalysisResult) : List AnalysisResult :=
  (sortByRecency (results.filter (fun r => r.type == "demand_forecast"))).take 3

/-- Embedding of extractForecastRecommendations. -/
def extractForecastRecommendations (now : Int) (results : List AnalysisResult) :
    List RecommendationItem :=
  (forecastScanned results).flatMap (forecastItemsFor now)

/-- The Optimal Resource Allocation item of the optimization extractor.
The objective value is interpolated behind a truthiness guard. -/
def optFeasibleItem (now : Int) (r : AnalysisResult) : RecommendationItem :=
  { id := "opt-feasible-" ++ r.id
    type := .resource
    title := "Optimal Resource Allocation"
    description := "Your " ++ r.data.name ++ " optimization model has a feasible solution with " ++
      (match r.data.objectiveValue with
       | some ov => if ov ≠ 0 then "an objective value of " ++ toFixed2 ov else "optimized resource allocation"
       | none => "optimized resource allocation") ++ "."
    confidence := 0.9
    source := .analysis
    createdAt := now }

/-- The Key Resource Allocation item of the optimization extractor. -/
def optResourcesItem (now : Int) (r : AnalysisResult) (sig : List VariableData) : RecommendationItem :=
  { id := "opt-resources-" ++ r.id
    type := .resource
    title := "Key Resource Allocation"
    description := "Focus on these resources for optimal results: " ++
      String.intercalate ", " (sig.map (fun v => v.name ++ ": " ++ toFixed2 v.value))
    confidence := 0.8
    source := .analysis
    createdAt := now }

/-- The Resource Bottlenecks Identified item of the optimization extractor. -/
def optConstraintsItem (now : Int) (r : AnalysisResult) (binding : List String) : RecommendationItem :=
  { id := "opt-constraints-" ++ r.id
    type := .business
    title := "Resource Bottlenecks Identified"
    description := "These factors are limiting your optimization: " ++
      String.intercalate ", " binding ++ ". Consider increasing these resources."
    confidence := 0.85
    source := .analysis
    createdAt := now }

/-- The Resource Constraints Too Tight item of the optimization extractor. -/
def optInfeasibleItem (now : Int) (r : AnalysisResult) : RecommendationItem :=
  { id := "opt-infeasible-" ++ r.id
    type := .business
    title := "Resource Constraints Too Tight"
    description := "Your " ++ r.data.name ++
      " optimization model doesn\x27t have a feasible solution. Consider relaxing some constraints or adding more resources."
    confidence := 0.9
    source := .analysis
    createdAt := now }

/-- Descending order on decision variables used by the source comparator
(a, b) => b.value - a.value. -/
def varGE (a b : VariableData) : Prop :=
  b.value ≤ a.value

instance : DecidableRel varGE :=
  fun a b => inferInstanceAs (Decidable (b.value ≤ a.value))

/-- The key-variable rule of the optimization extractor, active only for
feasible solutions: the top three positive-valued variables by value. -/
def optVarsPart (now : Int) (r : AnalysisResult) : List RecommendationItem :=
  match r.data.«variables» with
  | some vars =>
    let significantVariables :=
      (List.insertionSort varGE (vars.filter (fun v => decide (v.value > 0)))).take 3
    if significantVariables.length > 0 then [optResourcesItem now r significantVariables] else []
  | none => []

/-- The binding-constraint rule of the optimization extractor, active only
for feasible solutions. -/
def optConsPart (now : Int) (r : AnalysisResult) : List RecommendationItem :=
  match r.data.constraints with
  | some cs =>
    let bindingConstraints :=
      (cs.filter (fun c => decide (c.slack = 0 ∨ |c.slack| < 0.001))).map (·.name)
    if bindingConstraints.length > 0 then [optConstraintsItem now r bindingConstraints] else []
  | none => []

/-- The items the optimization extractor pushes for one scanned analysis. -/
def optItemsFor (now : Int) (r : AnalysisResult) : List RecommendationItem :=
  match r.data.feasible with
  | some true => optFeasibleItem now r :: (optVarsPart now r ++ optConsPart now r)
  | some false => [optInfeasibleItem now r]
  | none => []

/-- The analyses the optimization extractor scans: those of type
optimization, recency sorted and capped to the three most recent. -/
def optScanned (results : List AnalysisResult) : List AnalysisResult :=
  (sortByRecency (results.filter (fun r => r.type == "optimization"))).take 3

/-- Embedding of extractOptimizationRecommendations. -/
def extractOptimizationRecommendations (now : Int) (results : List AnalysisResult) :
    List RecommendationItem :=
  (optScanned results).flatMap (optItemsFor now)

/-- The seven insight categories of the chat extractor. -/
inductive Category where
  | growth
  | profit
  | cost
  | risk
  | market
  | seasonal
  | resource
  deriving DecidableEq

/-- The lowercase name of a category as interpolated into chat item ids. -/
def catName : Category → String
  | .growth => "growth"
  | .profit => "profit"
  | .cost => "cost"
  | .risk => "risk"
  | .market => "market"
  | .seasonal => "seasonal"
  | .resource => "resource"

/-- The fixed keyword-to-category table, in source insertion order. -/
def keywordMap : List (String × Category) :=
  [("increase", .growth), ("expand", .growth), ("grow", .growth),
   ("profit", .profit), ("revenue", .profit),
   ("cost", .cost), ("expense", .cost), ("save", .cost),
   ("risk", .risk),
   ("market", .market), ("demand", .market), ("customer", .market),
   ("season", .seasonal), ("weather", .seasonal), ("climate", .seasonal),
   ("resource", .resource), ("water", .resource), ("soil", .resource),
   ("fertilizer", .resource), ("pest", .resource), ("equipment", .resource)]

/-- The per-category sentence buckets of the chat extractor. -/
structure Buckets where
  growth : List String := []
  profit : List String := []
  cost : List String := []
  risk : List String := []
  market : List String := []
  seasonal : List String := []
  resource : List String := []
  deriving DecidableEq

/-- Reading one bucket. -/
def bucketsGet (b : Buckets) : Category → List String
  | .growth => b.growth
  | .profit => b.profit
  | .cost => b.cost
  | .risk => b.risk
  | .market => b.market
  | .seasonal => b.seasonal
  | .resource => b.resource

/-- Appending one sentence at the end of one bucket, the model of the
source push. -/
def bucketsPush (b : Buckets) (c : Category) (s : String) : Buckets :=
  match c with
  | .growth => { b with growth := b.growth ++ [s] }
  | .profit => { b with profit := b.profit ++ [s] }
  | .cost => { b with cost := b.cost ++ [s] }
  | .risk => { b with risk := b.risk ++ [s] }
  | .market => { b with market := b.market ++ [s] }
  | .seasonal => { b with seasonal := b.seasonal ++ [s] }
  | .resource => { b with resource := b.resource ++ [s] }

/-- Bool test that the first character list occurs contiguously inside the
second. -/
def charsInside (needle : List Char) : List Char → Bool
  | [] => needle.isEmpty
  | c :: rest => needle.isPrefixOf (c :: rest) || charsInside needle rest

/-- Model of JavaScript String.includes. -/
def strIncludes (hay needle : String) : Bool :=
  charsInside needle.data hay.data

/-- ASCII model of toLowerCase on one character. -/
def lowerChar (c : Char) : Char :=
  if 65 ≤ c.toNat ∧ c.toNat ≤ 90 then Char.ofNat (c.toNat + 32) else c

/-- ASCII model of String.toLowerCase; every keyword of the table and
every sentence the claims exercise is ASCII. -/
def strLower (s : String) : String :=
  String.mk (s.data.map lowerChar)

/-- Whitespace class of the trim model. -/
def isSpaceChar (c : Char) : Bool :=
  c == ' ' || c == '\t' || c == '\n' || c == '\r'

/-- Model of String.trim: leading and trailing whitespace removed. -/
def strTrim (s : String) : String :=
  String.mk (((s.data.dropWhile isSpaceChar).reverse.dropWhile isSpaceChar).reverse)

/-- Delimiter class [.!?] of the sentence-splitting regex. -/
def isSentenceDelim (c : Char) : Bool :=
  c == '.' || c == '!' || c == '?'

/-- Splitter for the regex split on runs of sentence delimiters; the Bool
state records whether a delimiter run is currently being skipped. -/
def splitGo (skipping : Bool) (acc : List Char) : List Char → List String
  | [] => [String.mk acc.reverse]
  | c :: rest =>
    if skipping then
      if isSentenceDelim c then splitGo true [] rest
      else splitGo false [c] rest
    else
      if isSentenceDelim c then String.mk acc.reverse :: splitGo true [] rest
      else splitGo false (c :: acc) rest

/-- Model of content.split on the regex class of sentence delimiters. -/
def splitSentences (s : String) : List String :=
  splitGo false [] s.data

/-- Processing of one keyword table entry against one message: on a
case-insensitive hit, the first original-case sentence containing the
keyword is appended, trimmed, to the bucket of the keyword category. -/
def processKeyword (m : ChatMessage) (b : Buckets) (kw : String) (cat : Category) : Buckets :=
  if strIncludes (strLower m.content) kw then
    let sentences := splitSentences m.content
    let relevantSentences := sentences.filter (fun s => strIncludes (strLower s) kw)
    match relevantSentences with
    | [] => b
    | s :: _ => bucketsPush b cat (strTrim s)
  else b

/-- One message folded over the whole keyword table in source order. -/
def processMessage (b : Buckets) (m : ChatMessage) : Buckets :=
  keywordMap.foldl (fun bks kc => processKeyword m bks kc.1 kc.2) b

/-- Timestamp key of a chat message, missing values at the epoch. -/
def msgRecencyKey (m : ChatMessage) : Int :=
  match m.created_at with
  | some t => t
  | none => 0

/-- Recency order on chat messages. -/
def msgRecencyGE (a b : ChatMessage) : Prop :=
  msgRecencyKey b ≤ msgRecencyKey a

instance : DecidableRel msgRecencyGE :=
  fun a b => inferInstanceAs (Decidable (msgRecencyKey b ≤ msgRecencyKey a))

/-- The messages the chat extractor scans: assistant messages, recency
sorted and capped to the ten most recent. -/
def chatScanned (messages : List ChatMessage) : List ChatMessage :=
  (List.insertionSort msgRecencyGE (messages.filter (fun m => m.role == "assistant"))).take 10

/-- The buckets collected over all scanned messages. -/
def chatBuckets (messages : List ChatMessage) : Buckets :=
  (chatScanned messages).foldl processMessage {}

/-- The category-to-type mapping of the source switch; risk reaches the
default branch and maps to business. -/
def catType : Category → RecType
  | .growth => .business
  | .profit => .business
  | .market => .market
  | .seasonal => .market
  | .resource => .resource
  | .cost => .resource
  | .risk => .business

/-- The fixed per-category title table. -/
def catTitle : Category → String
  | .growth => "Growth Opportunity"
  | .profit => "Profit Enhancement"
  | .cost => "Cost Saving Opportunity"
  | .risk => "Risk Management"
  | .market => "Market Intelligence"
  | .seasonal => "Seasonal Planning"
  | .resource => "Resource Optimization"

/-- Iteration order of Object.entries over the categories record. -/
def categoryList : List Category :=
  [.growth, .profit, .cost, .risk, .market, .seasonal, .resource]

/-- The item emitted for one category when its bucket is non-empty: the
description is the first recorded sentence of the bucket. -/
def chatItemFor (now : Int) (b : Buckets) (cat : Category) : Option RecommendationItem :=
  match bucketsGet b cat with
  | [] => none
  | topSentence :: _ =>
    some { id := "chat-" ++ catName cat ++ "-" ++ toString now
           type := catType cat
           title := catTitle cat
           description := topSentence
           confidence := 0.6
           source := .chat
           createdAt := now }

/-- Embedding of extractChatInsights. -/
def extractChatInsights (now : Int) (messages : List ChatMessage) : List RecommendationItem :=
  categoryList.filterMap (chatItemFor now (chatBuckets messages))

/-- Model of charAt(0).toUpperCase() + slice(1). -/
def capFirst (s : String) : String :=
  match s.data with
  | [] => ""
  | c :: cs => String.mk (c.toUpper :: cs)

/-- The fixed seasonal crop table. -/
def seasonalCrops : Season → List String
  | .spring => ["Corn", "Soybeans", "Rice", "Cotton", "Vegetables"]
  | .summer => ["Sunflower", "Sorghum", "Millet", "Vegetables", "Fruits"]
  | .fall => ["Winter Wheat", "Barley", "Rapeseed", "Root vegetables"]
  | .winter => ["Planning", "Equipment maintenance", "Soil preparation"]

/-- The fixed seasonal activity table. -/
def seasonalActivities : Season → List String
  | .spring => ["Planting", "Soil preparation", "Fertilizing", "Pest management planning"]
  | .summer => ["Irrigation management", "Pest control", "Crop monitoring", "Early harvest planning"]
  | .fall => ["Harvesting", "Storage preparation", "Market research", "Winter crop planting"]
  | .winter => ["Equipment maintenance", "Financial planning", "Education", "Crop planning"]

/-- The crop item of the seasonal recommender. -/
def seasonalCropItem (now : Int) (s : Season) : RecommendationItem :=
  { id := "seasonal-crop-" ++ toString now
    type := .crop
    title := capFirst (seasonName s) ++ " Crop Recommendations"
    description := "Consider focusing on these crops this " ++ seasonName s ++ ": " ++
      String.intercalate ", " (seasonalCrops s) ++ "."
    confidence := 0.7
    source := .seasonal
    createdAt := now }

/-- The activity item of the seasonal recommender. -/
def seasonalActivityItem (now : Int) (s : Season) : RecommendationItem :=
  { id := "seasonal-activity-" ++ toString now
    type := .business
    title := capFirst (seasonName s) ++ " Activity Focus"
    description := "Key activities for this " ++ seasonName s ++ ": " ++
      String.intercalate ", " (seasonalActivities s) ++ "."
    confidence := 0.7
    source := .seasonal
    createdAt := now }

/-- Embedding of addSeasonalRecommendations. -/
def addSeasonalRecommendations (now : Int) : Option Season → List RecommendationItem
  | none => []
  | some s => [seasonalCropItem now s, seasonalActivityItem now s]

/-- Recency order on emitted items for the first aggregator sort. -/
def itemRecencyGE (a b : RecommendationItem) : Prop :=
  b.createdAt ≤ a.createdAt

instance : DecidableRel itemRecencyGE :=
  fun a b => inferInstanceAs (Decidable (b.createdAt ≤ a.createdAt))

/-- Calendar-day key modelling toDateString equality: two timestamps get
equal keys exactly when they fall on the same day; only equality of the
key is ever used by the pipeline. -/
def dayKey (t : Int) : Int :=
  Int.fdiv t 86400000

/-- Same-day confidence order of the second aggregator sort: the source
comparator returns b.confidence - a.confidence for items of the same
calendar day and 0 otherwise, so a may stay before b exactly when same-day
items are in descending confidence order. -/
def sameDayConfGE (a b : RecommendationItem) : Prop :=
  dayKey a.createdAt = dayKey b.createdAt → b.confidence ≤ a.confidence

instance : DecidableRel sameDayConfGE :=
  fun a b =>
    inferInstanceAs (Decidable (dayKey a.createdAt = dayKey b.createdAt → b.confidence ≤ a.confidence))

/-- The fixed fallback summary of the source. -/
def fallbackSummary : String :=
  "Insufficient data for personalized recommendations. Continue using Arina to analyze your agricultural business for tailored insights."

/-- The summary string built from the top five final recommendations and
the per-type analysis counts over the original, uncapped input. -/
def buildSummary (input : RecommendationInput) (topRecs : List RecommendationItem) : String :=
  match topRecs with
  | [] => fallbackSummary
  | _ :: _ =>
    let businessRec := topRecs.find? (fun rec => rec.type == RecType.business)
    let marketRec := topRecs.find? (fun rec => rec.type == RecType.market)
    let resourceRec := topRecs.find? (fun rec => rec.type == RecType.resource)
    let cropRec := topRecs.find? (fun rec => rec.type == RecType.crop)
    let countsBusiness :=
      (input.analysisResults.filter (fun r => r.type == "business_feasibility")).length
    let countsForecast :=
      (input.analysisResults.filter (fun r => r.type == "demand_forecast")).length
    let countsOptimization :=
      (input.analysisResults.filter (fun r => r.type == "optimization")).length
    let s0 :=
      if countsBusiness > 0 ∨ countsForecast > 0 ∨ countsOptimization > 0 then
        "Based on your " ++
          (if countsBusiness > 0 then "business feasibility analysis, " else "") ++
          (if countsForecast > 0 then "demand forecasting, " else "") ++
          (if countsOptimization > 0 then "optimization analysis, " else "") ++ "we recommend: "
      else "Based on your historical data, we recommend: "
    let s1 := match businessRec with | some rec => s0 ++ rec.title ++ ". " | none => s0
    let s2 := match marketRec with | some rec => s1 ++ rec.title ++ ". " | none => s1
    let s3 := match resourceRec with | some rec => s2 ++ rec.title ++ ". " | none => s2
    let s4 := match cropRec with | some rec => s3 ++ rec.title ++ ". " | none => s3
    match input.currentSeason with
    | some se => s4 ++ "Consider adjusting your strategy for the " ++ seasonName se ++ " season."
    | none => s4

/-- Embedding of generateRecommendations, the single entry point of the
pipeline. -/
def generateRecommendations (now : Int) (input : RecommendationInput) : RecommendationSet :=
  let sortedResults := (sortByRecency input.analysisResults).take 10
  let businessRecs := extractBusinessRecommendations now sortedResults
  let forecastRecs := extractForecastRecommendations now sortedResults
  let optimizationRecs := extractOptimizationRecommendations now sortedResults
  let chatRecs := extractChatInsights now input.chatHistory
  let seasonalRecs := addSeasonalRecommendations now input.currentSeason
  let allRecommendations :=
    businessRecs ++ forecastRecs ++ optimizationRecs ++ chatRecs ++ seasonalRecs
  let sortedByDate := List.insertionSort itemRecencyGE allRecommendations
  let resorted := List.insertionSort sameDayConfGE sortedByDate
  let finalRecommendations := resorted.take 10
  let topRecs := finalRecommendations.take 5
  { id := "rec-set-" ++ toString now
    userId := input.userId
    recommendations := finalRecommendations
    summary := buildSummary input topRecs
    createdAt := now }

/-- C1: the recency sorter returns a list of the same length as the input
that is a permutation of it and is ordered non-increasingly by the
creation-timestamp key, where a missing timestamp is valued at the epoch
(recencyKey); the input list itself is left unchanged, the embedding being
a pure function that sorts a copy. -/
theorem sortByRecency_spec (l : List AnalysisResult) :
    (sortByRecency l).length = l.length ∧
    (sortByRecency l).Perm l ∧
    (sortByRecency l).Sorted (fun a b => recencyKey b ≤ recencyKey a) := by
  refine ⟨(List.perm_insertionSort recencyGE l).length_eq, List.perm_insertionSort recencyGE l, ?_⟩
  exact List.sorted_insertionSort recencyGE l

/-- C2: the returned RecommendationSet holds at most ten items, each
per-type extractor scans at most the three most recent analyses of its
type, and the chat extractor scans at most the ten most recent assistant
messages. -/
theorem caps_spec (now : Int) (input : RecommendationInput)
    (results : List AnalysisResult) (messages : List ChatMessage) :
    (generateRecommendations now input).recommendations.length ≤ 10 ∧
    (bizScanned results).length ≤ 3 ∧
    (forecastScanned results).length ≤ 3 ∧
    (optScanned results).length ≤ 3 ∧
    (chatScanned messages).length ≤ 10 := by
  refine ⟨?_, ?_, ?_, ?_, ?_⟩ <;>
    simp [generateRecommendations, bizScanned, forecastScanned, optScanned, chatScanned,
      List.length_take]

/-- Sample optimization analysis whose payload reports an infeasible
solution. -/
def optExInfeasible : AnalysisResult :=
  { id := "opt1", type := "optimization", data := { feasible := some false } }

/-- Sample optimization analysis whose payload lacks the feasible flag. -/
def optExNoFlag : AnalysisResult :=
  { id := "opt2", type := "optimization" }

/-- C3: an optimization analysis whose payload has feasible equal to false
yields exactly the Resource Constraints Too Tight item, typed business with
confidence 0.90, and no variable or constraint items; one whose payload
lacks the feasible flag yields no items at all; and the optimization
extractor applies this per-analysis rule to each of the at most three
scanned analyses. -/
theorem optFeasibility_spec (now : Int) (r : AnalysisResult) :
    (r.data.feasible = some false →
      optItemsFor now r = [optInfeasibleItem now r] ∧
      (optInfeasibleItem now r).title = "Resource Constraints Too Tight" ∧
      (optInfeasibleItem now r).confidence = 0.9 ∧
      (optInfeasibleItem now r).type = RecType.business) ∧
    (r.data.feasible = none → optItemsFor now r = []) ∧
    ∀ results, extractOptimizationRecommendations now results =
      (optScanned results).flatMap (optItemsFor now) := by
  refine ⟨fun h => ⟨?_, rfl, rfl, rfl⟩, fun h => ?_, fun _ => rfl⟩
  · simp [optItemsFor, h]
  · simp [optItemsFor, h]

/-- Witness for C3 at concrete inputs: the infeasible sample yields exactly
the single item and the flagless sample yields none. -/
theorem optFeasibility_spec_witness :
    optItemsFor 7 optExInfeasible = [optInfeasibleItem 7 optExInfeasible] ∧
    optItemsFor 7 optExNoFlag = [] :=
  ⟨((optFeasibility_spec 7 optExInfeasible).1 rfl).1,
   (optFeasibility_spec 7 optExNoFlag).2.1 rfl⟩

/-- A JSON value as the jsonb payload can hold at a numeric field such as
accuracy.mape: a number, a boolean, or null.  The typed AnalysisData
embedding covers the number case; this sum is used to trace what the
source does on wrong-shaped values. -/
inductive JsonVal where
  | num (q : ℚ)
  | bool (b : Bool)
  | null
  deriving DecidableEq

/-- JavaScript truthiness of a JsonVal. -/
def jsonTruthy : JsonVal → Bool
  | .num q => q != 0
  | .bool b => b
  | .null => false

/-- ECMAScript ToNumber as applied by the relational operators to a
JsonVal: a number is itself, true is 1, false is 0, null is 0. -/
def jsonToNumber : JsonVal → ℚ
  | .num q => q
  | .bool b => if b then 1 else 0
  | .null => 0

/-- Number.prototype.toFixed reached through a property access on the
value: only a number has it; on a boolean or null the call throws a
TypeError. -/
def jsonToFixed1 : JsonVal → Except String String
  | .num q => Except.ok (toFixed1 q)
  | .bool _ => Except.error "TypeError"
  | .null => Except.error "TypeError"

/-- The forecast-accuracy rule of the source re-traced over an untyped
mape value of the jsonb payload, with the outcome of the interpolated
data.accuracy.mape.toFixed(1) made explicit.  The source wraps nothing in
a handler, so an error value here aborts the whole
generateRecommendations run. -/
def forecastAccuracyRuleJs (now : Int) (rid productName : String) (mape : JsonVal) :
    Except String (List RecommendationItem) :=
  if jsonTruthy mape = true ∧ jsonToNumber mape < 10 then
    (jsonToFixed1 mape).map fun fixed =>
      [{ id := "forecast-accuracy-" ++ rid
         type := .business
         title := "High Forecast Reliability"
         description := "Your " ++ productName ++ " forecast has a high accuracy (MAPE: " ++
           fixed ++ "%). Use this forecast with confidence for planning."
         confidence := 0.8
         source := .analysis
         createdAt := now }]
  else if jsonTruthy mape = true ∧ jsonToNumber mape > 20 then
    (jsonToFixed1 mape).map fun fixed =>
      [{ id := "forecast-inaccuracy-" ++ rid
         type := .business
         title := "Forecast Uncertainty Alert"
         description := "Your " ++ productName ++ " forecast has a higher error rate (MAPE: " ++
           fixed ++ "%). Consider using more historical data or adjusting your forecast method."
         confidence := 0.7
         source := .analysis
         createdAt := now }]
  else Except.ok []

/-- C9: the no-error claim fails on the code.  A present but wrong-shaped
mape, here the boolean true (a numeric string behaves the same), passes
the truthiness guard and the coerced comparison of the source condition
on data.accuracy.mape, after which the interpolated toFixed(1) call
throws a TypeError instead of skipping the rule, aborting the run.  The
all-empty-input clause of the claim does hold: that input returns the
empty recommendation list with the fixed fallback summary. -/
theorem accuracyTypeError_spec (now : Int) (uid : String) :
    forecastAccuracyRuleJs now "fc9" "Rice" (JsonVal.bool true) = Except.error "TypeError" ∧
    jsonTruthy (JsonVal.bool true) = true ∧
    jsonToNumber (JsonVal.bool true) < 10 ∧
    generateRecommendations now { userId := uid } =
      { id := "rec-set-" ++ toString now
        userId := uid
        recommendations := []
        summary := fallbackSummary
        createdAt := now } :=
  ⟨rfl, rfl, by decide, rfl⟩

/-- C4: for a demand-forecast analysis whose forecasted series has at least
two points and a nonzero first forecast, with the growth rate defined as
(last - first) / first, the trend rule emits exactly one Growing Demand
Trend item of confidence 0.75 and type market when the rate exceeds 0.1,
exactly one Declining Demand Alert item of confidence 0.75 and type market
phrased with the absolute decline rate when it is below -0.1, and no trend
item when the rate lies within plus or minus 0.1; the forecast extractor
applies the rule to each of the at most three scanned analyses. -/
theorem forecastTrend_spec (now : Int) (r : AnalysisResult)
    (p0 p1 : ForecastPoint) (rest : List ForecastPoint)
    (hf : r.data.forecasted = some (p0 :: p1 :: rest))
    (hz : p0.forecast ≠ 0) :
    let growthRate := (((p1 :: rest).getLastD p1).forecast - p0.forecast) / p0.forecast
    (growthRate > 0.1 →
      forecastTrendItems now r = [forecastGrowthItem now r growthRate] ∧
      (forecastGrowthItem now r growthRate).title = "Growing Demand Trend" ∧
      (forecastGrowthItem now r growthRate).confidence = 0.75 ∧
      (forecastGrowthItem now r growthRate).type = RecType.market) ∧
    (growthRate < -0.1 →
      forecastTrendItems now r = [forecastDeclineItem now r growthRate] ∧
      (forecastDeclineItem now r growthRate).title = "Declining Demand Alert" ∧
      (forecastDeclineItem now r growthRate).confidence = 0.75 ∧
      (forecastDeclineItem now r growthRate).type = RecType.market ∧
      (forecastDeclineItem now r growthRate).description =
        "Demand for " ++ r.data.productName ++ " is projected to decline by " ++
          toFixed1 (|growthRate| * 100) ++
          "% over the forecast period. Consider diversifying your product mix.") ∧
    (-0.1 ≤ growthRate → growthRate ≤ 0.1 → forecastTrendItems now r = []) ∧
    (∀ results, extractForecastRecommendations now results =
      (forecastScanned results).flatMap (forecastItemsFor now)) := by
  intro growthRate
  refine ⟨fun hgt => ⟨?_, rfl, rfl, rfl⟩, fun hlt => ⟨?_, rfl, rfl, rfl, rfl⟩,
    fun hge hle => ?_, fun _ => rfl⟩
  · simp only [forecastTrendItems, hf]
    rw [if_pos hgt]
  · simp only [forecastTrendItems, hf]
    rw [if_neg (by simp only [not_lt]; linarith), if_pos hlt]
  · simp only [forecastTrendItems, hf]
    rw [if_neg (by simp only [not_lt]; linarith), if_neg (by simp only [not_lt]; linarith)]

/-- Sample demand-forecast analysis with a thirty percent projected
growth. -/
def fcExGrowth : AnalysisResult :=
  { id := "fc1", type := "demand_forecast",
    data := { forecasted := some [{ forecast := 100 }, { forecast := 130 }] } }

/-- Witness for C4 at a concrete input: the sample series from 100 to 130
has growth rate 0.3 and yields exactly the Growing Demand Trend item. -/
theorem forecastTrend_spec_witness :
    forecastTrendItems 3 fcExGrowth =
      [forecastGrowthItem 3 fcExGrowth ((130 - 100) / 100)] :=
  ((forecastTrend_spec 3 fcExGrowth { forecast := 100 } { forecast := 130 } [] rfl
    (by decide)).1 (by decide)).1

/-- Sample business-feasibility analysis with a present break-even figure
of zero units: the break-even ratio is 0, well below 0.5. -/
def bizExZeroBreakeven : AnalysisResult :=
  { id := "biz0", type := "business_feasibility",
    data := { breakEvenUnits := some 0, monthlySalesVolume := some 1 } }

/-- Counterexample to C5 as stated: in this input the analysis is scanned,
both breakEvenUnits and monthlySalesVolume are present, their ratio 0 is
below 0.5, yet the extractor emits no item at all, because the truthiness
guard of the source treats the present value 0 as absent. -/
theorem breakevenClaim_counterexample :
    bizExZeroBreakeven ∈ bizScanned [bizExZeroBreakeven] ∧
    bizExZeroBreakeven.data.breakEvenUnits = some 0 ∧
    bizExZeroBreakeven.data.monthlySalesVolume = some 1 ∧
    ((0 : ℚ) / 1 < 0.5) ∧
    extractBusinessRecommendations 4 [bizExZeroBreakeven] = [] := by
  refine ⟨?_, rfl, rfl, by decide, ?_⟩ <;> decide

/-- C5 amended: for every business-feasibility analysis among the at most
three scanned in which breakEvenUnits and monthlySalesVolume are both
present and nonzero (truthy) and their ratio is below 0.5, the business
extractor emits a Favorable Break-Even Point item with confidence 0.85 and
type business. -/
theorem breakevenTruthy_spec (now : Int) (results : List AnalysisResult)
    (r : AnalysisResult) (hr : r ∈ bizScanned results) (b m : ℚ)
    (hb : r.data.breakEvenUnits = some b) (hm : r.data.monthlySalesVolume = some m)
    (hb0 : b ≠ 0) (hm0 : m ≠ 0) (hlt : b / m < 0.5) :
    ∃ i ∈ extractBusinessRecommendations now results,
      i.title = "Favorable Break-Even Point" ∧
      i.confidence = 0.85 ∧ i.type = RecType.business := by
  refine ⟨bizBreakevenItem now r (b / m), ?_, rfl, rfl, rfl⟩
  unfold extractBusinessRecommendations
  refine List.mem_flatMap.mpr ⟨r, hr, ?_⟩
  have hmem : bizBreakevenItem now r (b / m) ∈ bizBreakevenPart now r := by
    unfold bizBreakevenPart
    rw [hb, hm]
    try dsimp only []
    rw [if_pos ⟨hb0, hm0⟩]
    try dsimp only []
    rw [if_pos hlt]
    exact List.mem_singleton_self _
  exact List.mem_append.mpr (Or.inr hmem)

/-- Sample business-feasibility analysis with a favorable break-even
ratio of one tenth. -/
def bizExGoodBreakeven : AnalysisResult :=
  { id := "biz1", type := "business_feasibility",
    data := { breakEvenUnits := some 1, monthlySalesVolume := some 10 } }

/-- Witness for the amended C5 at a concrete input. -/
theorem breakevenTruthy_spec_witness :
    ∃ i ∈ extractBusinessRecommendations 4 [bizExGoodBreakeven],
      i.title = "Favorable Break-Even Point" ∧
      i.confidence = 0.85 ∧ i.type = RecType.business :=
  breakevenTruthy_spec 4 [bizExGoodBreakeven] bizExGoodBreakeven (by decide)
    1 10 rfl rfl (by decide) (by decide) (by decide)

/-- Sample demand-forecast analysis whose accuracy metric mape is present
with value zero, a perfectly accurate forecast. -/
def fcExZeroMape : AnalysisResult :=
  { id := "fc0", type := "demand_forecast",
    data := { accuracy := some { mape := some 0 } } }

/-- Counterexample to C6 as stated: in this input the analysis is scanned,
mape is present with value 0, which is below 10, yet the extractor emits
no accuracy item, because the truthiness guard of the source treats the
present value 0 as absent. -/
theorem mapeClaim_counterexample :
    fcExZeroMape ∈ forecastScanned [fcExZeroMape] ∧
    fcExZeroMape.data.accuracy = some { mape := some 0 } ∧
    ((0 : ℚ) < 10) ∧
    forecastAccuracyItems 11 fcExZeroMape = [] ∧
    extractForecastRecommendations 11 [fcExZeroMape] = [] := by
  refine ⟨?_, rfl, by decide, ?_, ?_⟩ <;> decide

/-- C6 amended: for a demand-forecast analysis with a present and nonzero
(truthy) accuracy metric mape, a value below 10 yields exactly one High
Forecast Reliability item of confidence 0.80 and type business, a value
above 20 yields exactly one Forecast Uncertainty Alert item of confidence
0.70 and type business, and a value in the closed band from 10 to 20
yields no accuracy item. -/
theorem mapeTruthy_spec (now : Int) (r : AnalysisResult) (acc : AccuracyData)
    (mape : ℚ) (hacc : r.data.accuracy = some acc) (hm : acc.mape = some mape)
    (hm0 : mape ≠ 0) :
    (mape < 10 →
      forecastAccuracyItems now r = [forecastReliableItem now r mape] ∧
      (forecastReliableItem now r mape).title = "High Forecast Reliability" ∧
      (forecastReliableItem now r mape).confidence = 0.8 ∧
      (forecastReliableItem now r mape).type = RecType.business) ∧
    (mape > 20 →
      forecastAccuracyItems now r = [forecastUncertainItem now r mape] ∧
      (forecastUncertainItem now r mape).title = "Forecast Uncertainty Alert" ∧
      (forecastUncertainItem now r mape).confidence = 0.7 ∧
      (forecastUncertainItem now r mape).type = RecType.business) ∧
    (10 ≤ mape → mape ≤ 20 → forecastAccuracyItems now r = []) := by
  refine ⟨fun hlt => ⟨?_, rfl, rfl, rfl⟩, fun hgt => ⟨?_, rfl, rfl, rfl⟩, fun h1 h2 => ?_⟩
  · simp only [forecastAccuracyItems, hacc, hm]
    rw [if_pos ⟨hm0, hlt⟩]
  · simp only [forecastAccuracyItems, hacc, hm]
    rw [if_neg (fun hc => absurd hc.2 (by simp only [not_lt]; linarith)),
      if_pos ⟨hm0, hgt⟩]
  · simp only [forecastAccuracyItems, hacc, hm]
    rw [if_neg (fun hc => absurd hc.2 (by simp only [not_lt]; linarith)),
      if_neg (fun hc => absurd hc.2 (by simp only [not_lt]; linarith))]

/-- Sample demand-forecast analysis with a highly reliable forecast. -/
def fcExGoodMape : AnalysisResult :=
  { id := "fc2", type := "demand_forecast",
    data := { accuracy := some { mape := some 5 } } }

/-- Witness for the amended C6 at a concrete input. -/
theorem mapeTruthy_spec_witness :
    forecastAccuracyItems 11 fcExGoodMape = [forecastReliableItem 11 fcExGoodMape 5] :=
  ((mapeTruthy_spec 11 fcExGoodMape { mape := some 5 } 5 rfl rfl (by decide)).1
    (by decide)).1

/-- A filterMap whose produced values are forced to agree with a total
function is a sublist of the corresponding map. -/
theorem filterMap_sublist_map {α β : Type} (f : α → Option β) (g : α → β)
    (h : ∀ a y, f a = some y → y = g a) :
    ∀ l : List α, (l.filterMap f).Sublist (l.map g)
  | [] => by simp
  | a :: rest => by
    rw [List.filterMap_cons, List.map_cons]
    cases hfa : f a with
    | none => exact (filterMap_sublist_map f g h rest).cons _
    | some y =>
      rw [h a y hfa]
      exact (filterMap_sublist_map f g h rest).cons₂ _

/-- The title of any item the chat extractor produces for a category is the
fixed title of that category. -/
theorem chatItemFor_title (now : Int) (b : Buckets) (cat : Category) (y : String)
    (h : (chatItemFor now b cat).map (fun i => i.title) = some y) : y = catTitle cat := by
  unfold chatItemFor at h
  cases hb : bucketsGet b cat with
  | nil => rw [hb] at h; exact absurd h (by simp)
  | cons s rest =>
    rw [hb] at h
    simp at h
    first
    | exact h
    | exact h.symm

/-- C7: the chat extractor emits at most one item per category, hence at
most seven items with pairwise distinct titles; each emitted item comes
from a non-empty category bucket and carries the fixed per-category title,
the first sentence recorded into that bucket as description, confidence
0.60, source chat, and the type given by the category mapping, which sends
growth, profit and risk to business, market and seasonal to market, and
resource and cost to resource. -/
theorem chatInsights_spec (now : Int) (messages : List ChatMessage) :
    (extractChatInsights now messages).length ≤ 7 ∧
    ((extractChatInsights now messages).map (fun i => i.title)).Nodup ∧
    (∀ i ∈ extractChatInsights now messages, ∃ cat : Category,
      bucketsGet (chatBuckets messages) cat ≠ [] ∧
      i.title = catTitle cat ∧
      i.description = (bucketsGet (chatBuckets messages) cat).headI ∧
      i.confidence = 0.6 ∧
      i.source = RecSource.chat ∧
      i.type = catType cat) ∧
    catType .growth = .business ∧ catType .profit = .business ∧
    catType .risk = .business ∧ catType .market = .market ∧
    catType .seasonal = .market ∧ catType .resource = .resource ∧
    catType .cost = .resource := by
  refine ⟨?_, ?_, ?_, rfl, rfl, rfl, rfl, rfl, rfl, rfl⟩
  · have h := List.length_filterMap_le (chatItemFor now (chatBuckets messages)) categoryList
    simpa [extractChatInsights] using h
  · have hsub : ((extractChatInsights now messages).map (fun i => i.title)).Sublist
        (categoryList.map catTitle) := by
      rw [extractChatInsights, List.map_filterMap]
      exact filterMap_sublist_map _ _ (chatItemFor_title now (chatBuckets messages)) categoryList
    exact hsub.nodup (by decide)
  · intro i hi
    rw [extractChatInsights] at hi
    obtain ⟨cat, _, hsome⟩ := List.mem_filterMap.mp hi
    refine ⟨cat, ?_⟩
    unfold chatItemFor at hsome
    cases hb : bucketsGet (chatBuckets messages) cat with
    | nil => rw [hb] at hsome; exact absurd hsome (by simp)
    | cons s rest =>
      rw [hb] at hsome
      simp only [Option.some.injEq] at hsome
      rw [← hsome]
      exact ⟨by simp, rfl, by simp, rfl, rfl, rfl⟩

/-- Sample assistant message hitting the growth, profit and market
keyword categories. -/
def chatMsgEx : ChatMessage :=
  { role := "assistant", content := "You should increase profit. Watch the market." }

/-- Witness for C7 at a concrete input: the first emitted item of the
sample chat satisfies the per-item description of the theorem. -/
theorem chatInsights_spec_witness :
    ∃ cat : Category,
      bucketsGet (chatBuckets [chatMsgEx]) cat ≠ [] ∧
      ("Growth Opportunity" : String) = catTitle cat ∧
      ("You should increase profit" : String) = (bucketsGet (chatBuckets [chatMsgEx]) cat).headI ∧
      (0.6 : ℚ) = 0.6 ∧
      RecSource.chat = RecSource.chat ∧
      RecType.business = catType cat := by
  have h := (chatInsights_spec 5 [chatMsgEx]).2.2.1
    { id := "chat-growth-5", type := .business, title := "Growth Opportunity",
      description := "You should increase profit", confidence := 0.6,
      source := .chat, createdAt := 5 } (by decide)
  exact h

/-- C8: the seasonal recommender is a pure function of the optional season
tag; with no tag it emits nothing, and with a tag it emits exactly one
crop-typed and one business-typed item, both of confidence 0.70 and source
seasonal, whose titles start with the capitalized season name; in the
winter scenario with empty analyses and chat the returned set holds
exactly those two items and its summary ends with the winter closing
sentence. -/
theorem seasonal_spec (now : Int) (uid : String) :
    addSeasonalRecommendations now none = [] ∧
    (∀ s : Season,
      addSeasonalRecommendations now (some s) =
        [seasonalCropItem now s, seasonalActivityItem now s] ∧
      (seasonalCropItem now s).type = RecType.crop ∧
      (seasonalActivityItem now s).type = RecType.business ∧
      (seasonalCropItem now s).confidence = 0.7 ∧
      (seasonalActivityItem now s).confidence = 0.7 ∧
      (seasonalCropItem now s).source = RecSource.seasonal ∧
      (seasonalActivityItem now s).source = RecSource.seasonal ∧
      (∃ t, (seasonalCropItem now s).title = capFirst (seasonName s) ++ t) ∧
      (∃ t, (seasonalActivityItem now s).title = capFirst (seasonName s) ++ t)) ∧
    (generateRecommendations now { userId := uid, currentSeason := some .winter }).recommendations =
      [seasonalCropItem now .winter, seasonalActivityItem now .winter] ∧
    (∃ t, (generateRecommendations now { userId := uid, currentSeason := some .winter }).summary =
      t ++ "strategy for the winter season.") := by
  refine ⟨rfl, fun s => ?_, ?_, ?_⟩
  · exact ⟨rfl, rfl, rfl, rfl, rfl, rfl, rfl,
      ⟨" Crop Recommendations", rfl⟩, ⟨" Activity Focus", rfl⟩⟩
  · simp [generateRecommendations, extractBusinessRecommendations,
      extractForecastRecommendations, extractOptimizationRecommendations,
      extractChatInsights, chatBuckets, chatScanned, bizScanned, forecastScanned,
      optScanned, sortByRecency, addSeasonalRecommendations, List.insertionSort,
      List.orderedInsert, itemRecencyGE, sameDayConfGE, chatItemFor, categoryList,
      bucketsGet, seasonalCropItem, seasonalActivityItem]
  · refine ⟨"Based on your historical data, we recommend: Winter Activity Focus. Winter Crop Recommendations. Consider adjusting your ", ?_⟩
    simp [generateRecommendations, extractBusinessRecommendations,
      extractForecastRecommendations, extractOptimizationRecommendations,
      extractChatInsights, chatBuckets, chatScanned, bizScanned, forecastScanned,
      optScanned, sortByRecency, addSeasonalRecommendations, List.insertionSort,
      List.orderedInsert, itemRecencyGE, sameDayConfGE, chatItemFor, categoryList,
      bucketsGet, buildSummary, seasonalCropItem, seasonalActivityItem, capFirst,
      seasonName, fallbackSummary]

/-- Cross-freedom of two character lists: they disagree at some position
that both reach, so that no pair of extensions can be equal. -/
def crossFree : List Char → List Char → Bool
  | [], _ => false
  | _ :: _, [] => false
  | c :: p, d :: q => c != d || crossFree p q

/-- Extensions of cross-free character lists are never equal. -/
theorem crossFree_ne {p q : List Char} (h : crossFree p q = true) :
    ∀ {a b : List Char}, p ++ a ≠ q ++ b := by
  induction p generalizing q with
  | nil => simp [crossFree] at h
  | cons c p ih =>
    cases q with
    | nil => simp [crossFree] at h
    | cons d q =>
      intro a b he
      simp only [List.cons_append, List.cons.injEq] at he
      rcases he with ⟨hcd, htail⟩
      simp only [crossFree, Bool.or_eq_true, bne_iff_ne] at h
      rcases h with h1 | h2
      · exact h1 hcd
      · exact ih h2 htail

/-- Extensions of cross-free strings are never equal. -/
theorem crossFree_string_ne {p q : String} (h : crossFree p.data q.data = true)
    (a b : String) : p ++ a ≠ q ++ b := by
  intro he
  have hd : p.data ++ a.data = q.data ++ b.data := by
    rw [← String.data_append, ← String.data_append, he]
  exact crossFree_ne h hd

/-- Cancellation of a shared leading string. -/
theorem string_append_cancel {p a b : String} (h : p ++ a = p ++ b) : a = b := by
  have hd : p.data ++ a.data = p.data ++ b.data := by
    rw [← String.data_append, ← String.data_append, h]
  exact String.ext (List.append_cancel_left hd)

/-- Bool test that every tag of the first list is cross-free of every tag
of the second. -/
def tagsCross (P Q : List String) : Bool :=
  P.all fun p => Q.all fun q => crossFree p.data q.data

theorem tagsCross_spec {P Q : List String} (h : tagsCross P Q = true)
    {p q : String} (hp : p ∈ P) (hq : q ∈ Q) : crossFree p.data q.data = true :=
  List.all_eq_true.mp (List.all_eq_true.mp h p hp) q hq

/-- Pairwise cross-freedom inside one tag list. -/
def PairwiseCross (P : List String) : Prop :=
  P.Pairwise fun p q => crossFree p.data q.data = true ∧ crossFree q.data p.data = true

theorem pairwiseCross_get {P : List String} (h : PairwiseCross P)
    {p q : String} (hp : p ∈ P) (hq : q ∈ P) (hpq : p ≠ q) :
    crossFree p.data q.data = true :=
  (h.forall (fun _ _ hxy => ⟨hxy.2, hxy.1⟩) hp hq hpq).1

/-- Appending a common suffix to pairwise cross-free tags yields pairwise
distinct strings. -/
theorem nodup_tags_append {P : List String} (h : PairwiseCross P) (x : String) :
    (P.map (· ++ x)).Nodup :=
  List.Pairwise.map _ (fun _ _ hab => crossFree_string_ne hab.1 x x) h

/-- Ids of a per-analysis extractor over pairwise distinct analysis ids
are pairwise distinct, provided every emitted id is one of the cross-free
tags followed by the id of the scanned analysis. -/
theorem nodup_flatMap_ids {P : List String} (hP : PairwiseCross P)
    (f : AnalysisResult → List RecommendationItem)
    (hspec : ∀ r, ∀ i ∈ f r, ∃ p ∈ P, i.id = p ++ r.id)
    (hnd : ∀ r, ((f r).map (fun i => i.id)).Nodup)
    {scanned : List AnalysisResult}
    (hscan : (scanned.map (fun r => r.id)).Nodup) :
    ((scanned.flatMap f).map (fun i => i.id)).Nodup := by
  rw [List.map_flatMap]
  refine List.nodup_flatMap.mpr ⟨fun r _ => hnd r, ?_⟩
  have hpw : scanned.Pairwise (fun a b => a.id ≠ b.id) := List.pairwise_map.mp hscan
  refine hpw.imp ?_
  intro a b hab x hxa hxb
  obtain ⟨i, hia, hix⟩ := List.mem_map.mp hxa
  obtain ⟨j, hjb, hjx⟩ := List.mem_map.mp hxb
  obtain ⟨p, hp, hpi⟩ := hspec a i hia
  obtain ⟨q, hq, hqj⟩ := hspec b j hjb
  have he : p ++ a.id = q ++ b.id := by rw [← hpi, ← hqj, hix, hjx]
  by_cases hpq : p = q
  · subst hpq
    exact hab (string_append_cancel he)
  · exact crossFree_string_ne (pairwiseCross_get hP hp hq hpq) a.id b.id he

/-- Two id lists drawn from mutually cross-free tag families share no
element. -/
theorem disjoint_of_idFrom {P Q : List String} (hPQ : tagsCross P Q = true)
    {l1 l2 : List String}
    (h1 : ∀ x ∈ l1, ∃ p ∈ P, ∃ s, x = p ++ s)
    (h2 : ∀ x ∈ l2, ∃ q ∈ Q, ∃ t, x = q ++ t) :
    l1.Disjoint l2 := by
  intro x hx1 hx2
  obtain ⟨p, hp, s, rfl⟩ := h1 x hx1
  obtain ⟨q, hq, t, he⟩ := h2 _ hx2
  exact crossFree_string_ne (tagsCross_spec hPQ hp hq) s t he

/-- Union of two id-origin specifications. -/
theorem idFrom_append {P Q : List String} {l1 l2 : List String}
    (h1 : ∀ x ∈ l1, ∃ p ∈ P, ∃ s, x = p ++ s)
    (h2 : ∀ x ∈ l2, ∃ q ∈ Q, ∃ t, x = q ++ t) :
    ∀ x ∈ l1 ++ l2, ∃ p ∈ P ++ Q, ∃ s, x = p ++ s := by
  intro x hx
  rcases List.mem_append.mp hx with hx1 | hx2
  · obtain ⟨p, hp, s, he⟩ := h1 x hx1
    exact ⟨p, List.mem_append_left Q hp, s, he⟩
  · obtain ⟨q, hq, t, he⟩ := h2 x hx2
    exact ⟨q, List.mem_append_right P hq, t, he⟩

/-- The id tags of the business extractor, in rule order. -/
def bizTags : List String :=
  ["biz-profit-", "biz-roi-", "biz-cost-", "biz-breakeven-"]

/-- The id tags of the forecast extractor, in rule order. -/
def forecastTags : List String :=
  ["forecast-growth-", "forecast-decline-", "forecast-seasonal-",
   "forecast-accuracy-", "forecast-inaccuracy-"]

/-- The id tags of the optimization extractor, in rule order. -/
def optTags : List String :=
  ["opt-feasible-", "opt-resources-", "opt-constraints-", "opt-infeasible-"]

/-- The id tag of one chat category. -/
def chatIdTag (cat : Category) : String :=
  "chat-" ++ catName cat ++ "-"

/-- The id tags of the chat extractor, in category order. -/
def chatTags : List String :=
  categoryList.map chatIdTag

/-- The id tags of the seasonal recommender. -/
def seasonalTags : List String :=
  ["seasonal-crop-", "seasonal-activity-"]

/-- Items whose mapped ids form a sublist of tagged ids all originate from
one of the tags. -/
theorem idFrom_of_sublist {items : List RecommendationItem} {P : List String} {x : String}
    (h : (items.map (fun i => i.id)).Sublist (P.map (· ++ x))) :
    ∀ i ∈ items, ∃ p ∈ P, i.id = p ++ x := by
  intro i hi
  have hm : i.id ∈ P.map (· ++ x) := h.subset (List.mem_map_of_mem _ hi)
  obtain ⟨p, hp, he⟩ := List.mem_map.mp hm
  exact ⟨p, hp, he.symm⟩

/-- The ids the business extractor can emit for one analysis, in rule
order. -/
theorem bizItemsFor_ids_sublist (now : Int) (r : AnalysisResult) :
    ((bizItemsFor now r).map (fun i => i.id)).Sublist
      ["biz-profit-" ++ r.id, "biz-roi-" ++ r.id, "biz-cost-" ++ r.id,
       "biz-breakeven-" ++ r.id] := by
  have h1 : ((bizProfitPart now r).map (fun i => i.id)).Sublist ["biz-profit-" ++ r.id] := by
    unfold bizProfitPart
    repeat' (first | split | (dsimp only []; split))
    all_goals first | exact List.Sublist.refl _ | exact List.nil_sublist _
  have h2 : ((bizRoiPart now r).map (fun i => i.id)).Sublist ["biz-roi-" ++ r.id] := by
    unfold bizRoiPart
    repeat' (first | split | (dsimp only []; split))
    all_goals first | exact List.Sublist.refl _ | exact List.nil_sublist _
  have h3 : ((bizCostPart now r).map (fun i => i.id)).Sublist ["biz-cost-" ++ r.id] := by
    unfold bizCostPart
    repeat' (first | split | (dsimp only []; split))
    all_goals first | exact List.Sublist.refl _ | exact List.nil_sublist _
  have h4 : ((bizBreakevenPart now r).map (fun i => i.id)).Sublist ["biz-breakeven-" ++ r.id] := by
    unfold bizBreakevenPart
    repeat' (first | split | (dsimp only []; split))
    all_goals first | exact List.Sublist.refl _ | exact List.nil_sublist _
  have hall := List.Sublist.append (List.Sublist.append (List.Sublist.append h1 h2) h3) h4
  simpa only [bizItemsFor, List.map_append, List.cons_append, List.nil_append] using hall

/-- The ids the forecast extractor can emit for one analysis, in rule
order. -/
theorem forecastItemsFor_ids_sublist (now : Int) (r : AnalysisResult) :
    ((forecastItemsFor now r).map (fun i => i.id)).Sublist
      ["forecast-growth-" ++ r.id, "forecast-decline-" ++ r.id,
       "forecast-seasonal-" ++ r.id, "forecast-accuracy-" ++ r.id,
       "forecast-inaccuracy-" ++ r.id] := by
  have h1 : ((forecastTrendItems now r).map (fun i => i.id)).Sublist
      ["forecast-growth-" ++ r.id, "forecast-decline-" ++ r.id] := by
    unfold forecastTrendItems
    repeat' (first | split | (dsimp only []; split))
    all_goals first
      | exact List.nil_sublist _
      | exact (List.nil_sublist _).cons₂ _
      | exact (List.Sublist.refl _).cons _
  have h2 : ((forecastSeasonalItems now r).map (fun i => i.id)).Sublist
      ["forecast-seasonal-" ++ r.id] := by
    unfold forecastSeasonalItems
    repeat' (first | split | (dsimp only []; split))
    all_goals first | exact List.Sublist.refl _ | exact List.nil_sublist _
  have h3 : ((forecastAccuracyItems now r).map (fun i => i.id)).Sublist
      ["forecast-accuracy-" ++ r.id, "forecast-inaccuracy-" ++ r.id] := by
    unfold forecastAccuracyItems
    repeat' (first | split | (dsimp only []; split))
    all_goals first
      | exact List.nil_sublist _
      | exact (List.nil_sublist _).cons₂ _
      | exact (List.Sublist.refl _).cons _
  have hall := List.Sublist.append (List.Sublist.append h1 h2) h3
  simpa only [forecastItemsFor, List.map_append, List.cons_append, List.nil_append] using hall

/-- The ids the optimization extractor can emit for one analysis, in rule
order. -/
theorem optItemsFor_ids_sublist (now : Int) (r : AnalysisResult) :
    ((optItemsFor now r).map (fun i => i.id)).Sublist
      ["opt-feasible-" ++ r.id, "opt-resources-" ++ r.id,
       "opt-constraints-" ++ r.id, "opt-infeasible-" ++ r.id] := by
  have hv : ((optVarsPart now r).map (fun i => i.id)).Sublist ["opt-resources-" ++ r.id] := by
    unfold optVarsPart
    repeat' (first | split | (dsimp only []; split))
    all_goals first | exact List.Sublist.refl _ | exact List.nil_sublist _
  have hc : ((optConsPart now r).map (fun i => i.id)).Sublist ["opt-constraints-" ++ r.id] := by
    unfold optConsPart
    repeat' (first | split | (dsimp only []; split))
    all_goals first | exact List.Sublist.refl _ | exact List.nil_sublist _
  unfold optItemsFor
  split
  · show ((optFeasibleItem now r :: (optVarsPart now r ++ optConsPart now r)).map
      (fun i => i.id)).Sublist
      (("opt-feasible-" ++ r.id) ::
        (["opt-resources-" ++ r.id] ++ (["opt-constraints-" ++ r.id] ++ ["opt-infeasible-" ++ r.id])))
    rw [List.map_cons, List.map_append]
    exact (List.Sublist.append hv (hc.trans (List.sublist_append_left _ _))).cons₂ _
  · exact (((List.Sublist.refl _).cons _).cons _).cons _
  · exact List.nil_sublist _

/-- The id of a chat item is the tag of its category followed by the
clock value. -/
theorem chatItemFor_idMap (now : Int) (b : Buckets) (cat : Category) (y : String)
    (h : (chatItemFor now b cat).map (fun i => i.id) = some y) :
    y = chatIdTag cat ++ toString now := by
  unfold chatItemFor at h
  cases hb : bucketsGet b cat with
  | nil => rw [hb] at h; exact absurd h (by simp)
  | cons s rest =>
    rw [hb] at h
    simp at h
    first
    | exact h
    | exact h.symm

/-- The ids the chat extractor can emit, in category order. -/
theorem chat_ids_sublist (now : Int) (messages : List ChatMessage) :
    ((extractChatInsights now messages).map (fun i => i.id)).Sublist
      (chatTags.map (· ++ toString now)) := by
  rw [extractChatInsights, List.map_filterMap]
  have hs := filterMap_sublist_map
    (fun cat => (chatItemFor now (chatBuckets messages) cat).map (fun i => i.id))
    (fun cat => chatIdTag cat ++ toString now)
    (fun cat y hy => chatItemFor_idMap now (chatBuckets messages) cat y hy) categoryList
  simpa only [chatTags, List.map_map, Function.comp] using hs

/-- The ids the seasonal recommender can emit, in slot order. -/
theorem seasonal_ids_sublist (now : Int) (os : Option Season) :
    ((addSeasonalRecommendations now os).map (fun i => i.id)).Sublist
      ["seasonal-crop-" ++ toString now, "seasonal-activity-" ++ toString now] := by
  cases os with
  | none => exact List.nil_sublist _
  | some s => exact List.Sublist.refl _

/-- Pairwise cross-freedom of the business tags. -/
theorem pcBiz : PairwiseCross bizTags := by
  unfold PairwiseCross
  decide

/-- Pairwise cross-freedom of the forecast tags. -/
theorem pcForecast : PairwiseCross forecastTags := by
  unfold PairwiseCross
  decide

/-- Pairwise cross-freedom of the optimization tags. -/
theorem pcOpt : PairwiseCross optTags := by
  unfold PairwiseCross
  decide

/-- Pairwise cross-freedom of the chat tags. -/
theorem pcChat : PairwiseCross chatTags := by
  unfold PairwiseCross
  decide

/-- Pairwise cross-freedom of the seasonal tags. -/
theorem pcSeasonal : PairwiseCross seasonalTags := by
  unfold PairwiseCross
  decide

/-- Item-level origin of business ids. -/
theorem bizItemsFor_idSpec (now : Int) (r : AnalysisResult) :
    ∀ i ∈ bizItemsFor now r, ∃ p ∈ bizTags, i.id = p ++ r.id :=
  idFrom_of_sublist
    (show ((bizItemsFor now r).map (fun i => i.id)).Sublist (bizTags.map (· ++ r.id)) from
      bizItemsFor_ids_sublist now r)

/-- Item-level origin of forecast ids. -/
theorem forecastItemsFor_idSpec (now : Int) (r : AnalysisResult) :
    ∀ i ∈ forecastItemsFor now r, ∃ p ∈ forecastTags, i.id = p ++ r.id :=
  idFrom_of_sublist
    (show ((forecastItemsFor now r).map (fun i => i.id)).Sublist (forecastTags.map (· ++ r.id)) from
      forecastItemsFor_ids_sublist now r)

/-- Item-level origin of optimization ids. -/
theorem optItemsFor_idSpec (now : Int) (r : AnalysisResult) :
    ∀ i ∈ optItemsFor now r, ∃ p ∈ optTags, i.id = p ++ r.id :=
  idFrom_of_sublist
    (show ((optItemsFor now r).map (fun i => i.id)).Sublist (optTags.map (· ++ r.id)) from
      optItemsFor_ids_sublist now r)

/-- String-level origin of the ids of a per-analysis extractor block. -/
theorem flatMap_idFrom {P : List String} (f : AnalysisResult → List RecommendationItem)
    (hspec : ∀ r, ∀ i ∈ f r, ∃ p ∈ P, i.id = p ++ r.id) (scanned : List AnalysisResult) :
    ∀ y ∈ (scanned.flatMap f).map (fun i => i.id), ∃ p ∈ P, ∃ s, y = p ++ s := by
  intro y hy
  obtain ⟨i, hi, rfl⟩ := List.mem_map.mp hy
  obtain ⟨r, _, hir⟩ := List.mem_flatMap.mp hi
  obtain ⟨p, hp, he⟩ := hspec r i hir
  exact ⟨p, hp, r.id, he⟩

/-- String-level origin of a tagged sublist block. -/
theorem sublist_idFrom {items : List RecommendationItem} {P : List String} {x : String}
    (h : (items.map (fun i => i.id)).Sublist (P.map (· ++ x))) :
    ∀ y ∈ items.map (fun i => i.id), ∃ p ∈ P, ∃ s, y = p ++ s := by
  intro y hy
  obtain ⟨p, hp, he⟩ := List.mem_map.mp (h.subset hy)
  exact ⟨p, hp, x, he.symm⟩

/-- Sorting a copy preserves distinctness of the ids. -/
theorem nodup_ids_sortByRecency {l : List AnalysisResult}
    (h : (l.map (fun r => r.id)).Nodup) :
    ((sortByRecency l).map (fun r => r.id)).Nodup :=
  ((List.perm_insertionSort recencyGE l).map _).nodup_iff.mpr h

/-- A take preserves distinctness of the ids. -/
theorem nodup_ids_take (n : Nat) {l : List AnalysisResult}
    (h : (l.map (fun r => r.id)).Nodup) :
    ((l.take n).map (fun r => r.id)).Nodup := by
  rw [List.map_take]
  exact (List.take_sublist _ _).nodup h

/-- A filter preserves distinctness of the ids. -/
theorem nodup_ids_filter (p : AnalysisResult → Bool) {l : List AnalysisResult}
    (h : (l.map (fun r => r.id)).Nodup) :
    ((l.filter p).map (fun r => r.id)).Nodup :=
  ((List.filter_sublist l).map _).nodup h

/-- C10: if the analysis results of the input carry pairwise distinct ids,
then all item ids of the returned RecommendationSet are pairwise distinct:
analysis-derived ids pair a rule tag with the source analysis id, while
chat and seasonal ids pair distinct category or slot tags with the clock
value. -/
theorem uniqueIds_spec (now : Int) (input : RecommendationInput)
    (h : (input.analysisResults.map (fun r => r.id)).Nodup) :
    ((generateRecommendations now input).recommendations.map (fun i => i.id)).Nodup := by
  have hscan : (((sortByRecency input.analysisResults).take 10).map (fun r => r.id)).Nodup :=
    nodup_ids_take 10 (nodup_ids_sortByRecency h)
  have hrecs : (generateRecommendations now input).recommendations =
      (List.insertionSort sameDayConfGE (List.insertionSort itemRecencyGE
        (extractBusinessRecommendations now ((sortByRecency input.analysisResults).take 10) ++
         extractForecastRecommendations now ((sortByRecency input.analysisResults).take 10) ++
         extractOptimizationRecommendations now ((sortByRecency input.analysisResults).take 10) ++
         extractChatInsights now input.chatHistory ++
         addSeasonalRecommendations now input.currentSeason))).take 10 := rfl
  rw [hrecs]
  generalize hRdef : (sortByRecency input.analysisResults).take 10 = R at hscan ⊢
  -- the five blocks
  have hB : ((extractBusinessRecommendations now R).map (fun i => i.id)).Nodup :=
    nodup_flatMap_ids pcBiz (bizItemsFor now) (bizItemsFor_idSpec now)
      (fun r =>
        (show ((bizItemsFor now r).map (fun i => i.id)).Sublist (bizTags.map (· ++ r.id)) from
          bizItemsFor_ids_sublist now r).nodup (nodup_tags_append pcBiz r.id))
      (nodup_ids_take 3 (nodup_ids_sortByRecency (nodup_ids_filter _ hscan)))
  have hF : ((extractForecastRecommendations now R).map (fun i => i.id)).Nodup :=
    nodup_flatMap_ids pcForecast (forecastItemsFor now) (forecastItemsFor_idSpec now)
      (fun r =>
        (show ((forecastItemsFor now r).map (fun i => i.id)).Sublist
            (forecastTags.map (· ++ r.id)) from
          forecastItemsFor_ids_sublist now r).nodup (nodup_tags_append pcForecast r.id))
      (nodup_ids_take 3 (nodup_ids_sortByRecency (nodup_ids_filter _ hscan)))
  have hO : ((extractOptimizationRecommendations now R).map (fun i => i.id)).Nodup :=
    nodup_flatMap_ids pcOpt (optItemsFor now) (optItemsFor_idSpec now)
      (fun r =>
        (show ((optItemsFor now r).map (fun i => i.id)).Sublist (optTags.map (· ++ r.id)) from
          optItemsFor_ids_sublist now r).nodup (nodup_tags_append pcOpt r.id))
      (nodup_ids_take 3 (nodup_ids_sortByRecency (nodup_ids_filter _ hscan)))
  have hC : ((extractChatInsights now input.chatHistory).map (fun i => i.id)).Nodup :=
    (chat_ids_sublist now input.chatHistory).nodup (nodup_tags_append pcChat (toString now))
  have hS : ((addSeasonalRecommendations now input.currentSeason).map (fun i => i.id)).Nodup :=
    (seasonal_ids_sublist now input.currentSeason).nodup
      (show (seasonalTags.map (· ++ toString now)).Nodup from
        nodup_tags_append pcSeasonal (toString now))
  -- origin specifications
  have sB := flatMap_idFrom (bizItemsFor now) (bizItemsFor_idSpec now) (bizScanned R)
  have sF := flatMap_idFrom (forecastItemsFor now) (forecastItemsFor_idSpec now)
    (forecastScanned R)
  have sO := flatMap_idFrom (optItemsFor now) (optItemsFor_idSpec now) (optScanned R)
  have sC := sublist_idFrom (chat_ids_sublist now input.chatHistory)
  have sS := sublist_idFrom
    (show ((addSeasonalRecommendations now input.currentSeason).map (fun i => i.id)).Sublist
        (seasonalTags.map (· ++ toString now)) from
      seasonal_ids_sublist now input.currentSeason)
  -- distinctness of all emitted ids
  have hall : (((extractBusinessRecommendations now R ++
      extractForecastRecommendations now R ++
      extractOptimizationRecommendations now R ++
      extractChatInsights now input.chatHistory ++
      addSeasonalRecommendations now input.currentSeason)).map (fun i => i.id)).Nodup := by
    rw [List.map_append, List.map_append, List.map_append, List.map_append]
    have sBF := idFrom_append sB sF
    have sBFO := idFrom_append sBF sO
    have sBFOC := idFrom_append sBFO sC
    refine List.nodup_append.mpr ⟨?_, hS, ?_⟩
    · refine List.nodup_append.mpr ⟨?_, hC, ?_⟩
      · refine List.nodup_append.mpr ⟨?_, hO, ?_⟩
        · refine List.nodup_append.mpr ⟨hB, hF, ?_⟩
          · exact disjoint_of_idFrom (by decide) sB sF
        · exact disjoint_of_idFrom (by decide) sBF sO
      · exact disjoint_of_idFrom (by decide) sBFO sC
    · exact disjoint_of_idFrom (by decide) sBFOC sS
  -- the two aggregator sorts permute, the take is a sublist
  rw [List.map_take]
  refine (List.take_sublist _ _).nodup ?_
  refine ((List.perm_insertionSort sameDayConfGE _).map _).nodup_iff.mpr ?_
  exact ((List.perm_insertionSort itemRecencyGE _).map _).nodup_iff.mpr hall

/-- Sample input for the uniqueness witness: two analyses with distinct
ids, one chat message, and a season. -/
def uniqueInputEx : RecommendationInput :=
  { userId := "u"
    analysisResults := [optExInfeasible, bizExGoodBreakeven]
    chatHistory := [chatMsgEx]
    currentSeason := some .winter }

/-- Witness for C10 at a concrete input. -/
theorem uniqueIds_spec_witness :
    ((generateRecommendations 6 uniqueInputEx).recommendations.map (fun i => i.id)).Nodup :=
  uniqueIds_spec 6 uniqueInputEx (by decide)

end Arina
